import Mathlib

/-
Verification of the supervisor-and-broker subsystem of a desktop application
shell (Electron main process).  The development shallowly embeds the relevant
source functions — the configuration store (`getDataFolderPath`,
`saveDataFolderPath`, `isFirstRun`), the first-run bootstrap
(`runSetupWizard`, `ensureEnvFile`), the worker health gate (`waitForServer`),
and the OAuth broker (`signInWithMicrosoft`, `saveMicrosoftTokens`,
`getMicrosoftAccount`, `signOutMicrosoft`, `refreshMicrosoftToken`,
`signInWithGoogle`, `saveGoogleTokens`, `getGoogleAccount`, `signOutGoogle`)
— as pure Lean functions over an explicit persistent-state record, and proves
theorems about them.
-/

namespace RiskShell

/- ===================== Persistent state model ===================== -/

/-- An account record as kept by the MSAL token cache. -/
structure MsAccount where
  username : String
  name : String
  homeAccountId : String
deriving DecidableEq

/-- The record written to `ms-tokens.json` by `saveMicrosoftTokens`. -/
structure MsTokenData where
  accessToken : String
  account : MsAccount
  expiresOn : Int
  scopes : List String
deriving DecidableEq

/-- Google user-info identity (email, name, picture). -/
structure GoogleUser where
  email : String
  name : String
  picture : String
deriving DecidableEq

/-- The record written to `google-tokens.json` by `saveGoogleTokens`.
`expiryDate` is optional because `tokens.expiry_date` may be absent. -/
structure GoogleTokenData where
  accessToken : String
  refreshToken : Option String
  expiryDate : Option Int
  account : GoogleUser
deriving DecidableEq

/-- Contents of a file on disk.  Token files hold structured records;
the `.env` settings file holds plain text.  A `text` value at a token-file
path models a file that `JSON.parse` rejects. -/
inductive FileContent
  | text (content : String)
  | msTokens (data : MsTokenData)
  | googleTokens (data : GoogleTokenData)
deriving DecidableEq

/-- A file is identified by its directory and its file name
(`path.join(dir, name)` in the source). -/
abbrev FileKey := String × String

/-- State of the `config.json` file read by `getDataFolderPath`:
missing, present but unreadable (read throws), present but not JSON
(parse throws), or parsed, with its `dataFolder` property and the other
properties it may carry (preserved by `saveDataFolderPath`'s merge). -/
inductive ConfigState
  | absent
  | unreadable
  | malformed
  | parsed (dataFolder : Option String) (extra : List (String × String))
deriving DecidableEq

/-- The persistent state the shell touches: the app-owned `userData`
directory, the user's home directory, the set of directories that exist on
disk, the state of `config.json`, and the other files (token files and
`.env` settings files). -/
structure Store where
  userDataPath : String
  homePath : String
  dirs : List String
  configState : ConfigState
  files : List (FileKey × FileContent)
deriving DecidableEq

/-- Read a file (`fs.existsSync` + `fs.readFileSync`): the first entry for
the key wins, as later `writeFile`s prepend. -/
def lookupFile : List (FileKey × FileContent) → FileKey → Option FileContent
  | [], _ => none
  | (k', v) :: rest, k => if k' = k then some v else lookupFile rest k

/-- `fs.writeFileSync`: create or replace the file. -/
def writeFile (s : Store) (k : FileKey) (v : FileContent) : Store :=
  { s with files := (k, v) :: s.files }

/-- `fs.unlinkSync`: remove every entry for the key. -/
def deleteFile (s : Store) (k : FileKey) : Store :=
  { s with files := s.files.filter (fun p => decide (p.1 ≠ k)) }

/-- `path.join` for the two-component paths the shell builds. -/
def joinPath (a b : String) : String := a ++ "/" ++ b

/- ===================== Configuration store ===================== -/

/-- `getAppConfigPath`: `app.getPath('userData')`. -/
def getAppConfigPath (s : Store) : String := s.userDataPath

/-- `getDataFolderPath`: if `config.json` exists, parses, and names a
`dataFolder` that is truthy (non-empty) and exists on disk, return it;
otherwise (missing or unreadable or unparseable file, missing property,
empty string, missing directory) fall back to the `userData` directory. -/
def getDataFolderPath (s : Store) : String :=
  match s.configState with
  | ConfigState.parsed (some d) _ =>
      if d ≠ "" ∧ d ∈ s.dirs then d else s.userDataPath
  | _ => s.userDataPath

/-- The `extra` properties surviving `saveDataFolderPath`'s read-merge:
a parsed config keeps its other properties, everything else merges into
the empty object (`let config = {}` with an empty `catch`). -/
def mergeBase : ConfigState → List (String × String)
  | ConfigState.parsed _ extra => extra
  | _ => []

/-- File-system operations a call performs, recorded so that the shape of
a write (direct write vs. temp-file-plus-rename, directory creation) is
observable. -/
inductive FsOp
  | write (dir fname : String)
  | rename (fromPath toPath : String)
  | mkdir (d : String)
deriving DecidableEq

/-- `saveDataFolderPath`: read-merge `config.json`, set `dataFolder`, and
write the file back with a single direct `fs.writeFileSync`.  The source
performs no validation or creation of `folderPath` and no temp-then-rename. -/
def saveDataFolderPath (p : String) (s : Store) : Store × List FsOp :=
  ({ s with configState := ConfigState.parsed (some p) (mergeBase s.configState) },
   [FsOp.write s.userDataPath "config.json"])

/-- `isFirstRun`: true iff `config.json` does not exist. -/
def isFirstRun (s : Store) : Bool :=
  match s.configState with
  | ConfigState.absent => true
  | _ => false

/- ===================== Worker health gate ===================== -/

/-- One outcome of `http.get` on the health endpoint: a response with a
status code, or a connection error. -/
inductive HealthResp
  | status (code : Nat)
  | connError
deriving DecidableEq

/-- The readiness test of `waitForServer`: `res.statusCode === 200`.
A connection error lands in the `.on('error')` handler and retries. -/
def isReady : HealthResp → Bool
  | HealthResp.status c => decide (c = 200)
  | HealthResp.connError => false

/-- Terminal outcome of the polling promise. -/
inductive PollResult
  | resolved (attempts : Nat)
  | rejected (message : String)
deriving DecidableEq

/-- `maxAttempts` in `waitForServer`. -/
def maxAttempts : Nat := 60

/-- The recursion of `waitForServer`: one `http.get` per call; on 200 the
promise resolves, otherwise `retry()` reschedules while
`attempts < maxAttempts` and rejects once `attempts` has reached it.
`attempts` is the source's 0-based counter and `remaining` is
`maxAttempts - attempts`, so `remaining = 0` is exactly the source's
`attempts < maxAttempts` failing.  `resolved` carries the number of
attempts performed (`attempts + 1`). -/
def pollHealth (responses : Nat → HealthResp) : Nat → Nat → PollResult
  | attempts, 0 =>
      if isReady (responses attempts) then PollResult.resolved (attempts + 1)
      else PollResult.rejected "Python server failed to start after 60 seconds"
  | attempts, r + 1 =>
      if isReady (responses attempts) then PollResult.resolved (attempts + 1)
      else pollHealth responses (attempts + 1) r

/-- `waitForServer(resolve, reject)` as invoked by `startPythonServer`:
polling starts at `attempts = 0` with the full budget. -/
def waitForServerRun (responses : Nat → HealthResp) : PollResult :=
  pollHealth responses 0 maxAttempts

/-- A health endpoint that fails on the first 60 polls (indices 0–59) and
returns 200 on the 61st poll (index 60). -/
def lateResponses : Nat → HealthResp :=
  fun n => if n = 60 then HealthResp.status 200 else HealthResp.connError

/-- A health endpoint that never responds. -/
def allConnError : Nat → HealthResp := fun _ => HealthResp.connError

/-- Decidable check that the first 60 polls of `lateResponses` are not 200. -/
def lateFirstSixtyNotReady : Bool :=
  (List.range 60).all (fun j => !(isReady (lateResponses j)))

/- ===================== First-run bootstrap ===================== -/

/-- The user's answers to the setup wizard's dialogs: whether the welcome
dialog was answered with Quit, the choice at the folder dialog
(0 = Browse, 1 = Use Default, 2 = Cancel Setup), the outcome of the
browse dialog, and the final choice to open the settings file. -/
structure WizardChoices where
  welcomeQuit : Bool
  folderResponse : Fin 3
  browseCanceled : Bool
  browsePaths : List String
  openConfigFile : Bool
deriving DecidableEq

/-- Observable actions of a bootstrap run: a wizard dialog was shown,
the app quit, the settings template was written, the legacy settings file
was migrated. -/
inductive Action
  | wizardPrompt
  | appQuit
  | templateWrite
  | envMigrate
deriving DecidableEq

/-- The `.env` template written by the wizard (section-divider comment
lines elided; no claim inspects the template's text). -/
def envTemplate (dataFolder : String) : String :=
  "# Risk Management System Configuration\n# Data Location: " ++ dataFolder ++
  "\nANTHROPIC_API_KEY=\nPROJECT_NAMES=\nNGROK_AUTH_TOKEN=\n" ++
  "SMTP_SERVER=smtp.office365.com\nSMTP_PORT=587\nEMAIL_FROM=\nEMAIL_TO=\n" ++
  "EMAIL_PASSWORD=\nMS_CLIENT_ID=\nMS_TENANT_ID=\nMS_CLIENT_SECRET=\n" ++
  "MS_USER_EMAIL=\nIMAP_SERVER=outlook.office365.com\nIMAP_PORT=993\n" ++
  "IMAP_PASSWORD=\n"

/-- The data folder the wizard settles on: the browsed folder when the
user browses and the open dialog returns one, otherwise the default
`home/Risk Management`. -/
def wizardDataFolder (c : WizardChoices) (s : Store) : String :=
  let defaultFolder := joinPath s.homePath "Risk Management"
  if c.folderResponse = 0 then
    if c.browseCanceled || c.browsePaths.isEmpty then defaultFolder
    else c.browsePaths.headD defaultFolder
  else defaultFolder

/-- The store after the wizard's `mkdirSync` (if the chosen folder is
missing) and `saveDataFolderPath`. -/
def wizardStore (c : WizardChoices) (s : Store) : Store :=
  let dataFolder := wizardDataFolder c s
  let s1 := if dataFolder ∈ s.dirs then s else { s with dirs := dataFolder :: s.dirs }
  (saveDataFolderPath dataFolder s1).1

/-- `runSetupWizard`: welcome dialog (Quit aborts), folder dialog
(Cancel Setup aborts; Browse falls back to the default folder when the
open dialog is canceled or returns no path), `mkdirSync` of the chosen
folder if missing, `saveDataFolderPath`, and the settings template write
guarded by `fs.existsSync(envPath)`.  Returns the settings-file key, the
new state, and the observable actions. -/
def runSetupWizard (c : WizardChoices) (s : Store) :
    Option FileKey × Store × List Action :=
  if c.welcomeQuit then (none, s, [Action.wizardPrompt, Action.appQuit])
  else if c.folderResponse = 2 then (none, s, [Action.wizardPrompt, Action.appQuit])
  else
    let dataFolder := wizardDataFolder c s
    let s2 := wizardStore c s
    let envKey : FileKey := (dataFolder, ".env")
    if (lookupFile s2.files envKey).isSome then
      (some envKey, s2, [Action.wizardPrompt])
    else
      (some envKey, writeFile s2 envKey (FileContent.text (envTemplate dataFolder)),
       [Action.wizardPrompt, Action.templateWrite])

/-- `ensureEnvFile`: first run enters the wizard; otherwise resolve the
data folder and return its `.env` if present; otherwise migrate the legacy
`.env` from the `userData` directory if one exists; otherwise enter the
wizard. -/
def ensureEnvFile (c : WizardChoices) (s : Store) :
    Option FileKey × Store × List Action :=
  if isFirstRun s then runSetupWizard c s
  else
    let dataFolder := getDataFolderPath s
    let envKey : FileKey := (dataFolder, ".env")
    if (lookupFile s.files envKey).isSome then (some envKey, s, [])
    else
      let oldEnvKey : FileKey := (getAppConfigPath s, ".env")
      match lookupFile s.files oldEnvKey with
      | some content => (some envKey, writeFile s envKey content, [Action.envMigrate])
      | none => runSetupWizard c s

/- ===================== Microsoft OAuth broker ===================== -/

/-- The fields of an MSAL authentication result that the shell reads. -/
structure MsAuthResult where
  account : MsAccount
  accessToken : String
  expiresOn : Int
  scopes : List String
deriving DecidableEq

/-- Outcome of one MSAL `acquireToken*` call: a token result, or a thrown
error. -/
inductive MsAuthOutcome
  | ok (result : MsAuthResult)
  | err (msg : String)
deriving DecidableEq

/-- The module-level MSAL client state: whether `msalClient` is non-null
and the accounts in its token cache. -/
structure MsalState where
  clientInitialized : Bool
  accounts : List MsAccount
deriving DecidableEq

/-- The discriminated result of the sign-in operations:
`{success:true, account, accessToken}` or `{success:false, error}`. -/
inductive MsResult
  | ok (account : MsAccount) (accessToken : String)
  | fail (error : String)
deriving DecidableEq

/-- The key of `ms-tokens.json` under the app config directory. -/
def msTokensKey (s : Store) : FileKey := (getAppConfigPath s, "ms-tokens.json")

/-- The key of `google-tokens.json` under the app config directory. -/
def googleTokensKey (s : Store) : FileKey := (getAppConfigPath s, "google-tokens.json")

/-- The `tokenData` record `saveMicrosoftTokens` serializes. -/
def msTokenDataOf (r : MsAuthResult) : MsTokenData :=
  { accessToken := r.accessToken
    account := r.account
    expiresOn := r.expiresOn
    scopes := r.scopes }

/-- Index of the first occurrence of `pat` in `l`, if any
(`String.prototype.includes` / the start of the regex match). -/
def findSubIdx : List Char → List Char → Option Nat
  | _, [] => some 0
  | [], _ :: _ => none
  | c :: cs, p :: ps =>
      if List.isPrefixOf (p :: ps) (c :: cs) then some 0
      else (findSubIdx cs (p :: ps)).map (· + 1)

/-- Drop characters up to (but not including) the first newline:
the extent of the regex `.*`, which does not match a newline. -/
def dropThroughEol : List Char → List Char
  | [] => []
  | c :: cs => if c = '\n' then c :: cs else dropThroughEol cs

/-- The pattern `MS_USER_EMAIL=` both `includes` and the regex look for. -/
def msEmailPat : List Char := "MS_USER_EMAIL=".toList

/-- The `.env` update in `saveMicrosoftTokens`: when the content contains
`MS_USER_EMAIL=`, replace from the first occurrence to the end of that line
with `MS_USER_EMAIL=<username>`; otherwise append a new
`MS_USER_EMAIL=<username>` line. -/
def replaceMsUserEmail (content username : String) : String :=
  match findSubIdx content.toList msEmailPat with
  | some i =>
      String.mk (content.toList.take i ++ ("MS_USER_EMAIL=" ++ username).toList
        ++ dropThroughEol (content.toList.drop i))
  | none => content ++ "\nMS_USER_EMAIL=" ++ username

/-- `saveMicrosoftTokens`: write the token record to `ms-tokens.json`,
then, if a `.env` exists in the resolved data folder, update its
`MS_USER_EMAIL` entry.  (A non-text file at the `.env` key cannot be read
as settings text; no update happens.) -/
def saveMicrosoftTokens (r : MsAuthResult) (s : Store) : Store :=
  let s1 := writeFile s (msTokensKey s) (FileContent.msTokens (msTokenDataOf r))
  let dataFolder := getDataFolderPath s1
  let envKey : FileKey := (dataFolder, ".env")
  match lookupFile s1.files envKey with
  | some (FileContent.text content) =>
      writeFile s1 envKey (FileContent.text (replaceMsUserEmail content r.account.username))
  | _ => s1

/-- The interactive device-code leg of `signInWithMicrosoft`: on success
the tokens are saved and the result is `{success:true}`; a thrown error is
caught by the surrounding `try` and becomes `{success:false, error}`. -/
def msInteractiveSignIn (device : MsAuthOutcome) (s : Store) : MsResult × Store :=
  match device with
  | MsAuthOutcome.ok r =>
      (MsResult.ok r.account r.accessToken, saveMicrosoftTokens r s)
  | MsAuthOutcome.err e => (MsResult.fail e, s)

/-- `signInWithMicrosoft`: with a cached account, try silent acquisition
first — a silent success returns `{success:true}` directly, WITHOUT calling
`saveMicrosoftTokens`; a silent failure falls through to the device-code
leg, as does the no-cached-account case. -/
def signInWithMicrosoft (msal : MsalState) (silent device : MsAuthOutcome)
    (s : Store) : MsResult × Store :=
  match msal.accounts with
  | _ :: _ =>
      match silent with
      | MsAuthOutcome.ok r => (MsResult.ok r.account r.accessToken, s)
      | MsAuthOutcome.err _ => msInteractiveSignIn device s
  | [] => msInteractiveSignIn device s

/-- Result of the account queries: `{success:true, account, isExpired}` or
`{success:false}`. -/
inductive AccountResult (α : Type)
  | ok (account : α) (isExpired : Bool)
  | fail
deriving DecidableEq

/-- `getMicrosoftAccount`: read `ms-tokens.json`; a missing file or a file
`JSON.parse` rejects yields `{success:false}`; `isExpired` is
`new Date(expiresOn) < new Date()`. -/
def getMicrosoftAccount (now : Int) (s : Store) : AccountResult MsAccount :=
  match lookupFile s.files (msTokensKey s) with
  | some (FileContent.msTokens d) =>
      AccountResult.ok d.account (decide (d.expiresOn < now))
  | some _ => AccountResult.fail
  | none => AccountResult.fail

/-- JavaScript truthiness of `tokenData.expiryDate && Date.now() > tokenData.expiryDate`:
an absent field or a zero timestamp is falsy, so the whole expression is
falsy; otherwise the comparison decides. -/
def jsExpiredGoogle (expiryDate : Option Int) (now : Int) : Bool :=
  match expiryDate with
  | none => false
  | some e => if e = 0 then false else decide (now > e)

/-- `getGoogleAccount`: read `google-tokens.json`; a missing or unparseable
file yields `{success:false}`. -/
def getGoogleAccount (now : Int) (s : Store) : AccountResult GoogleUser :=
  match lookupFile s.files (googleTokensKey s) with
  | some (FileContent.googleTokens d) =>
      AccountResult.ok d.account (jsExpiredGoogle d.expiryDate now)
  | some _ => AccountResult.fail
  | none => AccountResult.fail

/-- A `{success:true}` / `{success:false, error}` result with no payload. -/
inductive SimpleResult
  | ok
  | fail (error : String)
deriving DecidableEq

/-- The `for (const account of accounts) await cache.removeAccount(account)`
loop: the first throw aborts the loop and propagates. -/
def removeAllAccounts (f : MsAccount → Except String Unit) :
    List MsAccount → Except String Unit
  | [] => Except.ok ()
  | a :: rest =>
      match f a with
      | Except.ok _ => removeAllAccounts f rest
      | Except.error e => Except.error e

/-- `signOutMicrosoft`: delete `ms-tokens.json` if present, then clear the
MSAL cache (when the client is initialized).  The deletion precedes the
cache clearing, and a throw from the cache clearing is caught and returned
as `{success:false, error}`. -/
def signOutMicrosoft (f : MsAccount → Except String Unit) (msal : MsalState)
    (s : Store) : SimpleResult × Store :=
  let s1 := if (lookupFile s.files (msTokensKey s)).isSome
            then deleteFile s (msTokensKey s) else s
  match (if msal.clientInitialized then removeAllAccounts f msal.accounts
         else Except.ok ()) with
  | Except.ok _ => (SimpleResult.ok, s1)
  | Except.error e => (SimpleResult.fail e, s1)

/-- `signOutGoogle`: delete `google-tokens.json` if present and null the
client; no provider-side call is made. -/
def signOutGoogle (s : Store) : SimpleResult × Store :=
  let s1 := if (lookupFile s.files (googleTokensKey s)).isSome
            then deleteFile s (googleTokensKey s) else s
  (SimpleResult.ok, s1)

/-- `refreshMicrosoftToken` returns `{success:true, accessToken}` or
`{success:false, error}`. -/
inductive RefreshResult
  | ok (accessToken : String)
  | fail (error : String)
deriving DecidableEq

/-- `refreshMicrosoftToken`: no cached account is `{success:false}`;
a silent success saves the tokens; a throw is caught. -/
def refreshMicrosoftToken (msal : MsalState) (silent : MsAuthOutcome)
    (s : Store) : RefreshResult × Store :=
  match msal.accounts with
  | [] => (RefreshResult.fail "No account found", s)
  | _ :: _ =>
      match silent with
      | MsAuthOutcome.ok r => (RefreshResult.ok r.accessToken, saveMicrosoftTokens r s)
      | MsAuthOutcome.err e => (RefreshResult.fail e, s)

/- ===================== Google OAuth broker ===================== -/

/-- The token payload of a successful `getToken` code exchange. -/
structure GoogleTokens where
  access_token : String
  refresh_token : Option String
  expiry_date : Option Int
deriving DecidableEq

/-- `saveGoogleTokens`: write the token record to `google-tokens.json`. -/
def saveGoogleTokens (tokens : GoogleTokens) (u : GoogleUser) (s : Store) : Store :=
  writeFile s (googleTokensKey s)
    (FileContent.googleTokens
      { accessToken := tokens.access_token
        refreshToken := tokens.refresh_token
        expiryDate := tokens.expiry_date
        account := u })

/-- Terminal resolution of the Google sign-in promise:
`{success:true, account}` or `{success:false, error}`. -/
inductive GResult
  | ok (account : GoogleUser)
  | fail (error : String)
deriving DecidableEq

/-- One event delivered to the running Google flow: an HTTP request to the
local listener, carrying the request path, the `code` query parameter and
the outcomes of the `getToken` exchange and the user-info fetch the handler
would perform; or the firing of the 5-minute `setTimeout`. -/
inductive GEvent
  | request (path : String) (code : Option String)
      (tokenExchange : Except String GoogleTokens)
      (userinfoFetch : Except String GoogleUser)
  | timeout

/-- The response the event's sender observes: an HTML page with a status
code, a connection error (the listener is closed), or no response (the
handler ignores non-matching paths). -/
inductive GResponse
  | page (status : Nat)
  | connError
  | noResponse
deriving DecidableEq

/-- The running flow's state: whether the callback listener is bound, the
promise's resolution (a promise settles at most once), and the persistent
store. -/
structure GoogleState where
  listenerOpen : Bool
  result : Option GResult
  store : Store
deriving DecidableEq

/-- `resolve(r)`: settle the promise if it is not yet settled; a second
call is a no-op (JavaScript promise semantics). -/
def resolveG (st : GoogleState) (r : GResult) : GoogleState :=
  match st.result with
  | none => { st with result := some r }
  | some _ => st

/-- `server.close()`: the listener stops accepting connections; closing an
already-closed server is a no-op. -/
def closeG (st : GoogleState) : GoogleState := { st with listenerOpen := false }

/-- One step of the flow.  The request handler runs only while the listener
is bound (a request to a closed listener is refused).  On the callback path
with a code, the handler exchanges it, fetches the identity, saves the
tokens, answers 200, closes the listener and resolves; a throw from either
await is caught, answered 500, and resolved as a failure; a missing code is
answered 400 and resolved as `No authorization code`.  Any other path is
ignored.  The timer closes the listener and resolves the timeout result. -/
def googleStep (st : GoogleState) (e : GEvent) : GoogleState × GResponse :=
  match e with
  | GEvent.timeout =>
      (resolveG (closeG st) (GResult.fail "Sign-in timeout"), GResponse.noResponse)
  | GEvent.request path code tokenExchange userinfoFetch =>
      if st.listenerOpen then
        if path = "/oauth2callback" then
          match code with
          | some _ =>
              match tokenExchange with
              | Except.ok tokens =>
                  match userinfoFetch with
                  | Except.ok u =>
                      let st1 := { st with store := saveGoogleTokens tokens u st.store }
                      (resolveG (closeG st1) (GResult.ok u), GResponse.page 200)
                  | Except.error msg =>
                      (resolveG (closeG st) (GResult.fail msg), GResponse.page 500)
              | Except.error msg =>
                  (resolveG (closeG st) (GResult.fail msg), GResponse.page 500)
          | none =>
              (resolveG (closeG st) (GResult.fail "No authorization code"),
               GResponse.page 400)
        else (st, GResponse.noResponse)
      else (st, GResponse.connError)

/-- Run the flow over a sequence of delivered events. -/
def googleRun (st : GoogleState) : List GEvent → GoogleState
  | [] => st
  | e :: rest => googleRun (googleStep st e).1 rest

/-- The flow's state right after `server.listen` succeeds: listener bound,
promise pending. -/
def googleInit (s : Store) : GoogleState :=
  { listenerOpen := true, result := none, store := s }

/-- How `signInWithGoogle` starts: either the listener binds and the flow
of `googleStep` events runs, or binding fails.  The source registers only a
request handler on the server and no `error` listener, so a bind failure
(port contention) emits an unhandled `error` event — an uncaught exception,
not a resolution of the promise. -/
inductive GStart
  | listening (st : GoogleState)
  | uncaughtBindError
deriving DecidableEq

/-- `signInWithGoogle` up to its first asynchronous event. -/
def signInWithGoogleStart (bindOk : Bool) (s : Store) : GStart :=
  if bindOk then GStart.listening (googleInit s) else GStart.uncaughtBindError

/- ===================== Concrete sample data ===================== -/

/-- A sample cached account. -/
def acct0 : MsAccount :=
  { username := "user@example.com", name := "User", homeAccountId := "home0" }

/-- A sample MSAL token result for `acct0`. -/
def res0 : MsAuthResult :=
  { account := acct0, accessToken := "tok0", expiresOn := 1000, scopes := [] }

/-- A store with no configuration and no files. -/
def storeFresh : Store :=
  { userDataPath := "/Users/u/Library/Application Support/risk-management"
    homePath := "/Users/u"
    dirs := ["/Users/u"]
    configState := ConfigState.absent
    files := [] }

/-- A store whose `config.json` exists but is not valid JSON. -/
def storeBadConfig : Store :=
  { storeFresh with configState := ConfigState.malformed }

/-- A store holding a Microsoft token file. -/
def storeWithMsTokens : Store :=
  { storeFresh with
    files := [((storeFresh.userDataPath, "ms-tokens.json"),
               FileContent.msTokens (msTokenDataOf res0))] }

/-- A sample Google identity. -/
def guser0 : GoogleUser :=
  { email := "g@example.com", name := "G User", picture := "p" }

/-- A Google token record that lacks an `expiryDate`. -/
def gdataNoExpiry : GoogleTokenData :=
  { accessToken := "gat", refreshToken := some "grt", expiryDate := none
    account := guser0 }

/-- A store holding a Google token file without an `expiryDate`. -/
def storeWithGoogleTokens : Store :=
  { storeFresh with
    files := [((storeFresh.userDataPath, "google-tokens.json"),
               FileContent.googleTokens gdataNoExpiry)] }

/-- A provider-side cache clearing that always throws. -/
def removeBoom : MsAccount → Except String Unit := fun _ => Except.error "boom"

/-- A sample MSAL state with an initialized client and one cached account. -/
def msal0 : MsalState := { clientInitialized := true, accounts := [acct0] }

/-- An MSAL state with no cached account. -/
def msalEmpty : MsalState := { clientInitialized := true, accounts := [] }

/-- Wizard choices: start setup and use the default folder. -/
def choicesDefault : WizardChoices :=
  { welcomeQuit := false, folderResponse := 1, browseCanceled := false
    browsePaths := [], openConfigFile := false }

/-- The store produced by a completed first-run bootstrap on `storeFresh`
with the default choices. -/
def storeAfterFirstRun : Store :=
  (ensureEnvFile choicesDefault storeFresh).2.1

/- ===================== File-store lemmas ===================== -/

theorem lookupFile_write_self (s : Store) (k : FileKey) (v : FileContent) :
    lookupFile (writeFile s k v).files k = some v := by
  simp [lookupFile, writeFile]

theorem lookupFile_write_ne (s : Store) (k k' : FileKey) (v : FileContent)
    (h : k' ≠ k) : lookupFile (writeFile s k v).files k' = lookupFile s.files k' := by
  show lookupFile ((k, v) :: s.files) k' = lookupFile s.files k'
  simp only [lookupFile]
  rw [if_neg (fun h' => h h'.symm)]

theorem lookupFile_filter_self (l : List (FileKey × FileContent)) (k : FileKey) :
    lookupFile (l.filter (fun p => decide (p.1 ≠ k))) k = none := by
  induction l with
  | nil => rfl
  | cons p rest ih =>
      rw [List.filter_cons]
      by_cases h : p.1 = k
      · rw [if_neg (by simp [h])]
        exact ih
      · rw [if_pos (by simp [h])]
        simp only [lookupFile, if_neg h]
        exact ih

theorem lookupFile_delete_self (s : Store) (k : FileKey) :
    lookupFile (deleteFile s k).files k = none :=
  lookupFile_filter_self s.files k

/- ===================== Health-gate lemmas ===================== -/

theorem pollHealth_resolves (responses : Nat → HealthResp) (k : Nat) :
    ∀ (a r : Nat), k ≤ r →
      (∀ j, a ≤ j → j < a + k → isReady (responses j) = false) →
      isReady (responses (a + k)) = true →
      pollHealth responses a r = PollResult.resolved (a + k + 1) := by
  induction k with
  | zero =>
      intro a r _ _ hok
      rw [Nat.add_zero] at hok
      cases r with
      | zero => simp [pollHealth, hok]
      | succ r => simp [pollHealth, hok]
  | succ k ih =>
      intro a r hk hfail hok
      have ha : isReady (responses a) = false := hfail a le_rfl (by omega)
      match r, hk with
      | r + 1, hk =>
        have h1 : a + 1 + k = a + (k + 1) := by omega
        have h2 := ih (a + 1) r (by omega)
          (fun j hj1 hj2 => hfail j (by omega) (by omega))
          (by rw [h1]; exact hok)
        simp only [pollHealth, ha, Bool.false_eq_true, if_false]
        rw [h2, h1]

theorem pollHealth_rejects (responses : Nat → HealthResp) :
    ∀ (r a : Nat), (∀ j, a ≤ j → j ≤ a + r → isReady (responses j) = false) →
      pollHealth responses a r =
        PollResult.rejected "Python server failed to start after 60 seconds" := by
  intro r
  induction r with
  | zero =>
      intro a hfail
      simp [pollHealth, hfail a le_rfl (by omega)]
  | succ r ih =>
      intro a hfail
      simp only [pollHealth, hfail a le_rfl (by omega), Bool.false_eq_true, if_false]
      exact ih (a + 1) (fun j h1 h2 => hfail j (by omega) (by omega))

/- ===================== C1 ===================== -/

/-- C1 counterexample: a health endpoint that is not ready on any of the
first 60 polling attempts does NOT make the promise reject — the source
performs a 61st attempt (its `retry()` runs while `attempts < 60` with a
0-based counter that starts at 0), and a 200 there resolves the promise
after 61 attempts. -/
theorem waitForServer_attempt61_counterexample :
    lateFirstSixtyNotReady = true ∧
    waitForServerRun lateResponses = PollResult.resolved 61 := by
  constructor
  · decide
  · decide

/-- C1 (amended): the health gate performs up to 61 polling attempts (the
initial attempt plus up to 60 retries).  If the first 200 arrives on
attempt `i + 1` with `i ≤ 60` (0-based index `i`), the promise resolves
after exactly `i + 1` attempts; if none of the 61 attempts returns 200,
the promise rejects with the worker-startup-timeout error. -/
theorem waitForServer_amended (responses : Nat → HealthResp) :
    (∀ i, i ≤ maxAttempts → (∀ j, j < i → isReady (responses j) = false) →
      isReady (responses i) = true →
      waitForServerRun responses = PollResult.resolved (i + 1)) ∧
    ((∀ j, j ≤ maxAttempts → isReady (responses j) = false) →
      waitForServerRun responses =
        PollResult.rejected "Python server failed to start after 60 seconds") := by
  constructor
  · intro i hi hfail hok
    have := pollHealth_resolves responses i 0 maxAttempts hi
      (fun j _ hj => hfail j (by omega)) (by simpa using hok)
    simpa [waitForServerRun] using this
  · intro hfail
    exact pollHealth_rejects responses maxAttempts 0
      (fun j _ hj => hfail j (by simpa using hj))

/-- C1 witness: a never-ready endpoint makes the promise reject with the
worker-startup-timeout error. -/
theorem waitForServer_amended_witness :
    waitForServerRun allConnError =
      PollResult.rejected "Python server failed to start after 60 seconds" :=
  (waitForServer_amended allConnError).2 (fun _ _ => rfl)

/- ===================== Configuration-store lemmas ===================== -/

theorem getDataFolderPath_write (s : Store) (k : FileKey) (v : FileContent) :
    getDataFolderPath (writeFile s k v) = getDataFolderPath s := by
  cases h : s.configState with
  | parsed df extra => cases df <;> simp [getDataFolderPath, writeFile, h]
  | absent => simp [getDataFolderPath, writeFile, h]
  | unreadable => simp [getDataFolderPath, writeFile, h]
  | malformed => simp [getDataFolderPath, writeFile, h]

/- ===================== C5 ===================== -/

/-- C5 counterexample: with no prior AppConfig, `getDataFolderPath` returns
the app's `userData` directory, not `home/RiskManagement` (nor the
`home/Risk Management` default the wizard offers). -/
theorem resolveDataDirectory_default_counterexample :
    getDataFolderPath storeFresh = storeFresh.userDataPath ∧
    (getDataFolderPath storeFresh == joinPath storeFresh.homePath "RiskManagement")
      = false ∧
    (getDataFolderPath storeFresh == joinPath storeFresh.homePath "Risk Management")
      = false := by
  exact ⟨rfl, by decide, by decide⟩

/-- C5 (amended): with no prior AppConfig, `getDataFolderPath` returns the
app's private `userData` directory (and never fails); after
`saveDataFolderPath p`, a subsequent `getDataFolderPath` on the persisted
state returns `p` provided `p` is non-empty and exists on disk. -/
theorem resolveDataDirectory_amended :
    (∀ s : Store, s.configState = ConfigState.absent →
      getDataFolderPath s = s.userDataPath) ∧
    (∀ (s : Store) (p : String), p ≠ "" → p ∈ s.dirs →
      getDataFolderPath (saveDataFolderPath p s).1 = p) := by
  constructor
  · intro s h
    simp [getDataFolderPath, h]
  · intro s p hp hmem
    simp [saveDataFolderPath, getDataFolderPath, hp, hmem]

/-- C5 witness: the fresh store resolves to `userData`; after persisting an
existing custom directory, resolution returns it. -/
theorem resolveDataDirectory_amended_witness :
    getDataFolderPath storeFresh = storeFresh.userDataPath ∧
    getDataFolderPath
      (saveDataFolderPath "/Users/u/Sync" { storeFresh with dirs := ["/Users/u/Sync"] }).1
      = "/Users/u/Sync" :=
  ⟨resolveDataDirectory_amended.1 storeFresh rfl,
   resolveDataDirectory_amended.2 { storeFresh with dirs := ["/Users/u/Sync"] }
     "/Users/u/Sync" (by decide) (by decide)⟩

/- ===================== C7 ===================== -/

/-- C7 counterexample: `saveDataFolderPath` performs a single direct write
of `config.json` — no temp file, no rename, no `mkdir` — and does not
create the directory it was given: `/custom/path` still does not exist
afterwards. -/
theorem saveDataFolderPath_no_atomic_counterexample :
    (saveDataFolderPath "/custom/path" storeFresh).2 =
      [FsOp.write storeFresh.userDataPath "config.json"] ∧
    ((saveDataFolderPath "/custom/path" storeFresh).1.dirs.contains "/custom/path")
      = false := by
  exact ⟨rfl, by decide⟩

/-- C7 (amended): `saveDataFolderPath p` merges any parseable existing
config, sets `dataFolder := p`, and writes `config.json` in place with one
direct write; it performs no rename and neither validates nor creates `p`
(the directory set is unchanged), so a later read returns `p` only if `p`
already exists. -/
theorem saveDataFolderPath_amended (s : Store) (p : String) :
    (saveDataFolderPath p s).2 = [FsOp.write s.userDataPath "config.json"] ∧
    (saveDataFolderPath p s).1.dirs = s.dirs ∧
    (saveDataFolderPath p s).1.files = s.files ∧
    (saveDataFolderPath p s).1.configState
      = ConfigState.parsed (some p) (mergeBase s.configState) ∧
    (p ≠ "" → p ∈ s.dirs → getDataFolderPath (saveDataFolderPath p s).1 = p) ∧
    (p ∉ s.dirs → getDataFolderPath (saveDataFolderPath p s).1 = s.userDataPath) := by
  refine ⟨rfl, rfl, rfl, rfl, ?_, ?_⟩
  · intro hp hmem
    simp [saveDataFolderPath, getDataFolderPath, hp, hmem]
  · intro hmem
    simp [saveDataFolderPath, getDataFolderPath, hmem]

/-- C7 witness: saving a non-existent custom path records one direct write,
leaves the directory uncreated, and a later read falls back to `userData`. -/
theorem saveDataFolderPath_amended_witness :
    (saveDataFolderPath "/custom/path" storeFresh).1.dirs = storeFresh.dirs ∧
    getDataFolderPath (saveDataFolderPath "/custom/path" storeFresh).1
      = storeFresh.userDataPath :=
  ⟨(saveDataFolderPath_amended storeFresh "/custom/path").2.1,
   (saveDataFolderPath_amended storeFresh "/custom/path").2.2.2.2.2 (by decide)⟩

/- ===================== C9 ===================== -/

/-- C9: every path `getDataFolderPath` returns is either the `userData`
directory or a persisted, non-empty `dataFolder` that exists on disk; an
unreadable or unparseable config, or one naming a missing directory,
silently falls back to `userData`. -/
theorem getDataFolderPath_invariant (s : Store) :
    (getDataFolderPath s = s.userDataPath ∨
      ∃ d extra, s.configState = ConfigState.parsed (some d) extra ∧
        d ≠ "" ∧ d ∈ s.dirs ∧ getDataFolderPath s = d) ∧
    (s.configState = ConfigState.unreadable →
      getDataFolderPath s = s.userDataPath) ∧
    (s.configState = ConfigState.malformed →
      getDataFolderPath s = s.userDataPath) ∧
    (∀ d extra, s.configState = ConfigState.parsed (some d) extra → d ∉ s.dirs →
      getDataFolderPath s = s.userDataPath) := by
  refine ⟨?_, ?_, ?_, ?_⟩
  · cases h : s.configState with
    | parsed df extra =>
        cases df with
        | none => exact Or.inl (by simp [getDataFolderPath, h])
        | some d =>
            by_cases hc : d ≠ "" ∧ d ∈ s.dirs
            · exact Or.inr ⟨d, extra, rfl, hc.1, hc.2, by simp [getDataFolderPath, h, hc]⟩
            · refine Or.inl ?_
              simp only [getDataFolderPath, h, if_neg hc]
    | absent => exact Or.inl (by simp [getDataFolderPath, h])
    | unreadable => exact Or.inl (by simp [getDataFolderPath, h])
    | malformed => exact Or.inl (by simp [getDataFolderPath, h])
  · intro h
    simp [getDataFolderPath, h]
  · intro h
    simp [getDataFolderPath, h]
  · intro d extra h hmem
    simp [getDataFolderPath, h, hmem]

/-- C9 witness: an unparseable config falls back to the `userData`
directory. -/
theorem getDataFolderPath_invariant_witness :
    getDataFolderPath storeBadConfig = storeBadConfig.userDataPath :=
  (getDataFolderPath_invariant storeBadConfig).2.2.1 rfl

/- ===================== C10 ===================== -/

/-- C10: a persisted Google token file that parses but lacks an
`expiryDate` yields `{success:true}` with a falsy `isExpired`, whatever the
current time (`expiryDate && now > expiryDate` is falsy when the field is
absent). -/
theorem getGoogleAccount_no_expiry (s : Store) (now : Int) (d : GoogleTokenData)
    (hfile : lookupFile s.files (googleTokensKey s)
      = some (FileContent.googleTokens d))
    (hexp : d.expiryDate = none) :
    getGoogleAccount now s = AccountResult.ok d.account false := by
  simp [getGoogleAccount, hfile, jsExpiredGoogle, hexp]

/-- C10 witness: the stored record without expiry reports not-expired at a
late clock time. -/
theorem getGoogleAccount_no_expiry_witness :
    getGoogleAccount 99999999999 storeWithGoogleTokens
      = AccountResult.ok guser0 false :=
  getGoogleAccount_no_expiry storeWithGoogleTokens 99999999999 gdataNoExpiry rfl rfl

/- ===================== Microsoft-broker lemmas ===================== -/

theorem env_key_ne_msTokensKey (d1 : String) (s : Store) :
    ((d1, ".env") : FileKey) ≠ msTokensKey s := by
  intro h
  have h2 : ".env" = "ms-tokens.json" := congrArg Prod.snd h
  exact absurd h2 (by decide)

theorem saveMicrosoftTokens_eq_env (r : MsAuthResult) (s : Store) (c : String)
    (henv : lookupFile s.files (getDataFolderPath s, ".env")
      = some (FileContent.text c)) :
    saveMicrosoftTokens r s =
      writeFile (writeFile s (msTokensKey s) (FileContent.msTokens (msTokenDataOf r)))
        (getDataFolderPath s, ".env")
        (FileContent.text (replaceMsUserEmail c r.account.username)) := by
  have hdf : getDataFolderPath
      (writeFile s (msTokensKey s) (FileContent.msTokens (msTokenDataOf r)))
      = getDataFolderPath s := getDataFolderPath_write s _ _
  have hlook : lookupFile
      (writeFile s (msTokensKey s) (FileContent.msTokens (msTokenDataOf r))).files
      (getDataFolderPath s, ".env")
      = lookupFile s.files (getDataFolderPath s, ".env") :=
    lookupFile_write_ne s _ _ _ (env_key_ne_msTokensKey _ s)
  simp only [saveMicrosoftTokens]
  rw [hdf, hlook, henv]

theorem saveMicrosoftTokens_eq_noenv (r : MsAuthResult) (s : Store)
    (henv : ∀ c, lookupFile s.files (getDataFolderPath s, ".env")
      ≠ some (FileContent.text c)) :
    saveMicrosoftTokens r s =
      writeFile s (msTokensKey s) (FileContent.msTokens (msTokenDataOf r)) := by
  have hdf : getDataFolderPath
      (writeFile s (msTokensKey s) (FileContent.msTokens (msTokenDataOf r)))
      = getDataFolderPath s := getDataFolderPath_write s _ _
  have hlook : lookupFile
      (writeFile s (msTokensKey s) (FileContent.msTokens (msTokenDataOf r))).files
      (getDataFolderPath s, ".env")
      = lookupFile s.files (getDataFolderPath s, ".env") :=
    lookupFile_write_ne s _ _ _ (env_key_ne_msTokensKey _ s)
  simp only [saveMicrosoftTokens]
  rw [hdf, hlook]
  cases hv : lookupFile s.files (getDataFolderPath s, ".env") with
  | none => rfl
  | some v =>
      cases v with
      | text c => exact absurd hv (henv c)
      | msTokens d => rfl
      | googleTokens d => rfl

theorem saveMicrosoftTokens_props (r : MsAuthResult) (s : Store) :
    lookupFile (saveMicrosoftTokens r s).files (msTokensKey s)
      = some (FileContent.msTokens (msTokenDataOf r)) ∧
    (∀ c, lookupFile s.files (getDataFolderPath s, ".env")
        = some (FileContent.text c) →
      lookupFile (saveMicrosoftTokens r s).files (getDataFolderPath s, ".env")
        = some (FileContent.text (replaceMsUserEmail c r.account.username))) ∧
    (lookupFile s.files (getDataFolderPath s, ".env") = none →
      lookupFile (saveMicrosoftTokens r s).files (getDataFolderPath s, ".env")
        = none) := by
  refine ⟨?_, ?_, ?_⟩
  · cases henv : lookupFile s.files (getDataFolderPath s, ".env") with
    | none =>
        rw [saveMicrosoftTokens_eq_noenv r s (fun c hc => by rw [henv] at hc; cases hc)]
        exact lookupFile_write_self s _ _
    | some v =>
        cases v with
        | text c =>
            rw [saveMicrosoftTokens_eq_env r s c henv,
              lookupFile_write_ne _ _ _ _ (env_key_ne_msTokensKey _ s).symm]
            exact lookupFile_write_self s _ _
        | msTokens d =>
            rw [saveMicrosoftTokens_eq_noenv r s (fun c hc => by rw [henv] at hc; cases hc)]
            exact lookupFile_write_self s _ _
        | googleTokens d =>
            rw [saveMicrosoftTokens_eq_noenv r s (fun c hc => by rw [henv] at hc; cases hc)]
            exact lookupFile_write_self s _ _
  · intro c hc
    rw [saveMicrosoftTokens_eq_env r s c hc]
    exact lookupFile_write_self _ _ _
  · intro hnone
    rw [saveMicrosoftTokens_eq_noenv r s (fun c hc => by rw [hnone] at hc; cases hc)]
    rw [lookupFile_write_ne s _ _ _ (env_key_ne_msTokensKey _ s)]
    exact hnone

theorem signInWithMicrosoft_interactive (msal : MsalState)
    (silent device : MsAuthOutcome) (s : Store)
    (h : msal.accounts = [] ∨ ∃ e, silent = MsAuthOutcome.err e) :
    signInWithMicrosoft msal silent device s = msInteractiveSignIn device s := by
  rcases h with h | ⟨e, he⟩
  · simp [signInWithMicrosoft, h]
  · subst he
    cases hacc : msal.accounts <;> simp [signInWithMicrosoft, hacc]

/- ===================== C3 ===================== -/

/-- C3 counterexample: a silent-acquisition success returns
`{success:true}` but leaves the store untouched — `ms-tokens.json` is never
written and no `MS_USER_EMAIL` is propagated (the silent path of
`signInWithMicrosoft` returns before `saveMicrosoftTokens`). -/
theorem silentSignIn_no_persist_counterexample :
    (signInWithMicrosoft msal0 (MsAuthOutcome.ok res0) (MsAuthOutcome.err "unused")
        storeFresh).1 = MsResult.ok acct0 "tok0" ∧
    (signInWithMicrosoft msal0 (MsAuthOutcome.ok res0) (MsAuthOutcome.err "unused")
        storeFresh).2 = storeFresh ∧
    lookupFile storeFresh.files (msTokensKey storeFresh) = none := by
  exact ⟨rfl, rfl, rfl⟩

/-- C3 (amended): only the interactive device-code path persists the
session: a silent-path success returns `{success:true}` with no disk write,
while a device-code success writes the session to `ms-tokens.json` and
propagates the account's address into the `.env` file as `MS_USER_EMAIL` —
and only when that file already exists. -/
theorem signInWithMicrosoft_persistence_amended (msal : MsalState)
    (silent device : MsAuthOutcome) (s : Store) (r : MsAuthResult) :
    (∀ a rest, msal.accounts = a :: rest → silent = MsAuthOutcome.ok r →
      signInWithMicrosoft msal silent device s
        = (MsResult.ok r.account r.accessToken, s)) ∧
    ((msal.accounts = [] ∨ ∃ e, silent = MsAuthOutcome.err e) →
      device = MsAuthOutcome.ok r →
      (signInWithMicrosoft msal silent device s).1
        = MsResult.ok r.account r.accessToken ∧
      lookupFile (signInWithMicrosoft msal silent device s).2.files (msTokensKey s)
        = some (FileContent.msTokens (msTokenDataOf r)) ∧
      (∀ c, lookupFile s.files (getDataFolderPath s, ".env")
          = some (FileContent.text c) →
        lookupFile (signInWithMicrosoft msal silent device s).2.files
            (getDataFolderPath s, ".env")
          = some (FileContent.text (replaceMsUserEmail c r.account.username))) ∧
      (lookupFile s.files (getDataFolderPath s, ".env") = none →
        lookupFile (signInWithMicrosoft msal silent device s).2.files
            (getDataFolderPath s, ".env") = none)) := by
  constructor
  · intro a rest hacc hs
    subst hs
    simp [signInWithMicrosoft, hacc]
  · intro hin hdev
    rw [signInWithMicrosoft_interactive msal silent device s hin]
    subst hdev
    have hp := saveMicrosoftTokens_props r s
    exact ⟨rfl, hp.1, hp.2.1, hp.2.2⟩

/-- C3 witness: an interactive sign-in with no cached account persists the
session record. -/
theorem signInWithMicrosoft_persistence_amended_witness :
    (signInWithMicrosoft msalEmpty (MsAuthOutcome.err "no silent")
        (MsAuthOutcome.ok res0) storeFresh).1 = MsResult.ok acct0 "tok0" ∧
    lookupFile (signInWithMicrosoft msalEmpty (MsAuthOutcome.err "no silent")
        (MsAuthOutcome.ok res0) storeFresh).2.files (msTokensKey storeFresh)
      = some (FileContent.msTokens (msTokenDataOf res0)) :=
  have h := (signInWithMicrosoft_persistence_amended msalEmpty
    (MsAuthOutcome.err "no silent") (MsAuthOutcome.ok res0) storeFresh res0).2
    (Or.inl rfl) rfl
  ⟨h.1, h.2.1⟩

/- ===================== C8 ===================== -/

theorem signOutMicrosoft_store (f : MsAccount → Except String Unit)
    (msal : MsalState) (s : Store) :
    (signOutMicrosoft f msal s).2 =
      if (lookupFile s.files (msTokensKey s)).isSome
      then deleteFile s (msTokensKey s) else s := by
  unfold signOutMicrosoft
  cases hrm : (if msal.clientInitialized then removeAllAccounts f msal.accounts
               else Except.ok ()) with
  | ok u => simp [hrm]
  | error e => simp [hrm]

/-- C8 counterexample: when the provider-side cache clearing throws,
`signOutMicrosoft` returns `{success:false, error}` — not `{success:true}`
as the claim states — although the persisted session file has already been
deleted. -/
theorem signOutMicrosoft_provider_failure_counterexample :
    (signOutMicrosoft removeBoom msal0 storeWithMsTokens).1
      = SimpleResult.fail "boom" ∧
    lookupFile (signOutMicrosoft removeBoom msal0 storeWithMsTokens).2.files
      (msTokensKey storeWithMsTokens) = none := by
  exact ⟨rfl, by decide⟩

/-- C8 (amended): both sign-outs always delete the persisted session file
(the deletion precedes provider-side cache clearing, so the file is gone
regardless of provider-side failures), but a provider-side throw makes
`signOutMicrosoft` return `{success:false, error}` rather than
`{success:true}`; `signOutGoogle`, which has no provider-side call, always
returns `{success:true}`. -/
theorem signOut_local_clear_amended (f : MsAccount → Except String Unit)
    (msal : MsalState) (s : Store) :
    lookupFile (signOutMicrosoft f msal s).2.files (msTokensKey s) = none ∧
    (msal.clientInitialized = false →
      (signOutMicrosoft f msal s).1 = SimpleResult.ok) ∧
    (removeAllAccounts f msal.accounts = Except.ok () →
      (signOutMicrosoft f msal s).1 = SimpleResult.ok) ∧
    (∀ e, msal.clientInitialized = true →
      removeAllAccounts f msal.accounts = Except.error e →
      (signOutMicrosoft f msal s).1 = SimpleResult.fail e) ∧
    (signOutGoogle s).1 = SimpleResult.ok ∧
    lookupFile (signOutGoogle s).2.files (googleTokensKey s) = none := by
  refine ⟨?_, ?_, ?_, ?_, rfl, ?_⟩
  · rw [signOutMicrosoft_store]
    by_cases h : (lookupFile s.files (msTokensKey s)).isSome
    · simp [h, lookupFile_delete_self]
    · simp only [h, if_false, Bool.false_eq_true]
      exact Option.not_isSome_iff_eq_none.mp h
  · intro h
    simp [signOutMicrosoft, h]
  · intro h
    unfold signOutMicrosoft
    cases hcl : msal.clientInitialized <;> simp [hcl, h]
  · intro e hcl h
    simp [signOutMicrosoft, hcl, h]
  · show lookupFile (signOutGoogle s).2.files (googleTokensKey s) = none
    unfold signOutGoogle
    by_cases h : (lookupFile s.files (googleTokensKey s)).isSome
    · simp [h, lookupFile_delete_self]
    · simp only [h, if_false, Bool.false_eq_true]
      exact Option.not_isSome_iff_eq_none.mp h

/-- C8 witness: with a throwing provider-side clear, the Microsoft session
file is nevertheless gone and the result is the caught failure; the Google
sign-out succeeds. -/
theorem signOut_local_clear_amended_witness :
    lookupFile (signOutMicrosoft removeBoom msal0 storeWithMsTokens).2.files
      (msTokensKey storeWithMsTokens) = none ∧
    (signOutMicrosoft removeBoom msal0 storeWithMsTokens).1
      = SimpleResult.fail "boom" ∧
    (signOutGoogle storeWithMsTokens).1 = SimpleResult.ok :=
  ⟨(signOut_local_clear_amended removeBoom msal0 storeWithMsTokens).1,
   (signOut_local_clear_amended removeBoom msal0 storeWithMsTokens).2.2.2.1
     "boom" rfl rfl,
   (signOut_local_clear_amended removeBoom msal0 storeWithMsTokens).2.2.2.2.1⟩

/- ===================== Google-flow lemmas ===================== -/

@[simp] theorem closeG_listenerOpen (st : GoogleState) :
    (closeG st).listenerOpen = false := rfl

@[simp] theorem closeG_result (st : GoogleState) :
    (closeG st).result = st.result := rfl

@[simp] theorem resolveG_listenerOpen (st : GoogleState) (r : GResult) :
    (resolveG st r).listenerOpen = st.listenerOpen := by
  cases h : st.result <;> simp [resolveG, h]

theorem resolveG_some (st : GoogleState) (r r' : GResult) (h : st.result = some r) :
    (resolveG st r').result = some r := by
  simp [resolveG, h]

theorem resolveG_isSome (st : GoogleState) (r : GResult) :
    ((resolveG st r).result).isSome := by
  cases h : st.result <;> simp [resolveG, h]

theorem googleStep_result_some (st : GoogleState) (e : GEvent) (r : GResult)
    (h : st.result = some r) : ((googleStep st e).1).result = some r := by
  cases e with
  | timeout =>
      exact resolveG_some _ r _ (by simp [h])
  | request path code tx uf =>
      cases ho : st.listenerOpen with
      | false => simp [googleStep, ho, h]
      | true =>
          by_cases hp : path = "/oauth2callback"
          · cases code with
            | none => simp [googleStep, ho, hp, resolveG, closeG, h]
            | some c =>
                cases tx with
                | error m => simp [googleStep, ho, hp, resolveG, closeG, h]
                | ok tokens =>
                    cases uf with
                    | error m => simp [googleStep, ho, hp, resolveG, closeG, h]
                    | ok u => simp [googleStep, ho, hp, resolveG, closeG, h]
          · simp [googleStep, ho, hp, h]

theorem googleStep_closed (st : GoogleState) (e : GEvent)
    (h : st.listenerOpen = false) :
    ((googleStep st e).1).listenerOpen = false := by
  cases e with
  | timeout => simp [googleStep]
  | request path code tx uf => simp [googleStep, h]

theorem googleStep_inv (st : GoogleState) (e : GEvent)
    (h : st.result.isSome → st.listenerOpen = false) :
    ((googleStep st e).1).result.isSome →
      ((googleStep st e).1).listenerOpen = false := by
  cases e with
  | timeout => intro _; simp [googleStep]
  | request path code tx uf =>
      cases ho : st.listenerOpen with
      | false =>
          intro _
          simp [googleStep, ho]
      | true =>
          by_cases hp : path = "/oauth2callback"
          · cases code with
            | none => intro _; simp [googleStep, ho, hp]
            | some c =>
                cases tx with
                | error m => intro _; simp [googleStep, ho, hp]
                | ok tokens =>
                    cases uf with
                    | error m => intro _; simp [googleStep, ho, hp]
                    | ok u => intro _; simp [googleStep, ho, hp]
          · intro hs
            simp only [googleStep, ho, hp, if_true, if_false] at hs ⊢
            have hfalse := h hs
            rw [ho] at hfalse
            exact hfalse

theorem googleStep_timeout_none (st : GoogleState) (h : st.result = none) :
    (googleStep st GEvent.timeout).1 =
      { st with listenerOpen := false,
                result := some (GResult.fail "Sign-in timeout") } := by
  simp [googleStep, resolveG, closeG, h]

theorem googleStep_request_closed (st : GoogleState) (path : String)
    (code : Option String) (tx : Except String GoogleTokens)
    (uf : Except String GoogleUser) (h : st.listenerOpen = false) :
    googleStep st (GEvent.request path code tx uf) = (st, GResponse.connError) := by
  simp [googleStep, h]

theorem googleRun_append (st : GoogleState) (a b : List GEvent) :
    googleRun st (a ++ b) = googleRun (googleRun st a) b := by
  induction a generalizing st with
  | nil => rfl
  | cons e rest ih => simp [googleRun, ih]

theorem googleRun_result_some (st : GoogleState) (tr : List GEvent) (r : GResult)
    (h : st.result = some r) : (googleRun st tr).result = some r := by
  induction tr generalizing st with
  | nil => exact h
  | cons e rest ih => exact ih _ (googleStep_result_some st e r h)

theorem googleRun_closed (st : GoogleState) (tr : List GEvent)
    (h : st.listenerOpen = false) : (googleRun st tr).listenerOpen = false := by
  induction tr generalizing st with
  | nil => exact h
  | cons e rest ih => exact ih _ (googleStep_closed st e h)

theorem googleRun_inv (st : GoogleState) (tr : List GEvent)
    (h : st.result.isSome → st.listenerOpen = false) :
    (googleRun st tr).result.isSome → (googleRun st tr).listenerOpen = false := by
  induction tr generalizing st with
  | nil => exact h
  | cons e rest ih => exact ih _ (googleStep_inv st e h)

/- ===================== C2 ===================== -/

/-- C2: over every sequence of delivered events, the Google flow settles at
most once and the first resolving event fixes the outcome (1); the 5-minute
timer guarantees a terminal resolution (2); when the timer fires before any
resolution the outcome is the `Sign-in timeout` failure and the port is
freed (3); the listener is closed from the first resolution on (4) and
never reopens (5); and a request arriving after the flow has resolved gets
a connection error and changes nothing — not a second page (6). -/
theorem googleFlow_single_resolution (s : Store) (tr : List GEvent) :
    (∀ pre post r, tr = pre ++ post →
      (googleRun (googleInit s) pre).result = some r →
      (googleRun (googleInit s) tr).result = some r) ∧
    (GEvent.timeout ∈ tr → ((googleRun (googleInit s) tr).result).isSome) ∧
    (∀ pre post, tr = pre ++ GEvent.timeout :: post →
      (googleRun (googleInit s) pre).result = none →
      (googleRun (googleInit s) tr).result
          = some (GResult.fail "Sign-in timeout") ∧
      (googleRun (googleInit s) tr).listenerOpen = false) ∧
    (∀ pre post, tr = pre ++ post →
      ((googleRun (googleInit s) pre).result).isSome →
      (googleRun (googleInit s) pre).listenerOpen = false) ∧
    (∀ pre post, tr = pre ++ post →
      (googleRun (googleInit s) pre).listenerOpen = false →
      (googleRun (googleInit s) tr).listenerOpen = false) ∧
    (∀ pre path code tx uf post,
      tr = pre ++ GEvent.request path code tx uf :: post →
      ((googleRun (googleInit s) pre).result).isSome →
      googleStep (googleRun (googleInit s) pre) (GEvent.request path code tx uf)
        = (googleRun (googleInit s) pre, GResponse.connError)) := by
  have hinv : ∀ pre, ((googleRun (googleInit s) pre).result).isSome →
      (googleRun (googleInit s) pre).listenerOpen = false := by
    intro pre
    exact googleRun_inv _ pre (by intro h; simp [googleInit] at h)
  refine ⟨?_, ?_, ?_, ?_, ?_, ?_⟩
  · intro pre post r htr h
    subst htr
    rw [googleRun_append]
    exact googleRun_result_some _ post r h
  · intro hmem
    obtain ⟨pre, post, htr⟩ := List.append_of_mem hmem
    subst htr
    rw [googleRun_append]
    show ((googleRun (googleRun (googleInit s) pre) (GEvent.timeout :: post)).result).isSome
    have h1 : ((googleStep (googleRun (googleInit s) pre) GEvent.timeout).1).result.isSome :=
      resolveG_isSome _ _
    obtain ⟨r, hr⟩ := Option.isSome_iff_exists.mp h1
    have := googleRun_result_some _ post r hr
    simp [googleRun, this]
  · intro pre post htr h
    subst htr
    rw [googleRun_append]
    show (googleRun (googleRun (googleInit s) pre) (GEvent.timeout :: post)).result
        = some (GResult.fail "Sign-in timeout") ∧
      (googleRun (googleRun (googleInit s) pre) (GEvent.timeout :: post)).listenerOpen
        = false
    have hstep := googleStep_timeout_none _ h
    constructor
    · show ((googleRun ((googleStep (googleRun (googleInit s) pre) GEvent.timeout).1) post).result)
          = some (GResult.fail "Sign-in timeout")
      rw [hstep]
      exact googleRun_result_some _ post _ rfl
    · show ((googleRun ((googleStep (googleRun (googleInit s) pre) GEvent.timeout).1) post).listenerOpen)
          = false
      rw [hstep]
      exact googleRun_closed _ post rfl
  · intro pre post _ h
    exact hinv pre h
  · intro pre post htr h
    subst htr
    rw [googleRun_append]
    exact googleRun_closed _ post h
  · intro pre path code tx uf post _ h
    exact googleStep_request_closed _ path code tx uf (hinv pre h)

/-- C2 witness: with no callback, the timer resolves the flow as the
`Sign-in timeout` failure and the listener is closed. -/
theorem googleFlow_single_resolution_witness :
    (googleRun (googleInit storeFresh) [GEvent.timeout]).result
      = some (GResult.fail "Sign-in timeout") ∧
    (googleRun (googleInit storeFresh) [GEvent.timeout]).listenerOpen = false :=
  (googleFlow_single_resolution storeFresh [GEvent.timeout]).2.2.1 [] [] rfl rfl

/- ===================== C4 ===================== -/

/-- C4 counterexample: a failed bind of the Google callback listener
(port contention) is an unhandled `error` event — the source registers no
`error` listener on the server — so the flow never starts and no
`{success:false}` result is produced. -/
theorem googleBind_uncaught_counterexample :
    signInWithGoogleStart false storeFresh = GStart.uncaughtBindError ∧
    (signInWithGoogleStart false storeFresh
      == GStart.listening (googleInit storeFresh)) = false := by
  exact ⟨rfl, by decide⟩

/-- C4 (amended): every broker operation returns a discriminated
`{success:...}` result with provider and parse failures caught — the
Microsoft flows catch throwing MSAL calls, the account queries catch
unparseable token files, and the Google callback handler catches a failing
code exchange — except that a failure to bind the Google callback listener
raises an unhandled `error` event instead of resolving `{success:false}`. -/
theorem broker_discriminated_amended (s : Store) (msal : MsalState)
    (f : MsAccount → Except String Unit) (silent : MsAuthOutcome) (e : String)
    (now : Int) :
    ((signInWithMicrosoft msal silent (MsAuthOutcome.err e) s).1
        = MsResult.fail e ∨
      ∃ r, silent = MsAuthOutcome.ok r ∧
        (signInWithMicrosoft msal silent (MsAuthOutcome.err e) s).1
          = MsResult.ok r.account r.accessToken) ∧
    (msal.clientInitialized = true →
      removeAllAccounts f msal.accounts = Except.error e →
      (signOutMicrosoft f msal s).1 = SimpleResult.fail e) ∧
    (∀ c, lookupFile s.files (msTokensKey s) = some (FileContent.text c) →
      getMicrosoftAccount now s = AccountResult.fail) ∧
    (∀ c, lookupFile s.files (googleTokensKey s) = some (FileContent.text c) →
      getGoogleAccount now s = AccountResult.fail) ∧
    (signOutGoogle s).1 = SimpleResult.ok ∧
    (refreshMicrosoftToken
        { clientInitialized := msal.clientInitialized, accounts := [] } silent s).1
      = RefreshResult.fail "No account found" ∧
    (∀ a rest, msal.accounts = a :: rest →
      (refreshMicrosoftToken msal (MsAuthOutcome.err e) s).1
        = RefreshResult.fail e) ∧
    (∀ (st : GoogleState) (c : String) (uf : Except String GoogleUser),
      st.listenerOpen = true → st.result = none →
      ((googleStep st (GEvent.request "/oauth2callback" (some c)
          (Except.error e) uf)).1).result = some (GResult.fail e)) := by
  refine ⟨?_, ?_, ?_, ?_, rfl, rfl, ?_, ?_⟩
  · cases hacc : msal.accounts with
    | nil => exact Or.inl (by simp [signInWithMicrosoft, hacc, msInteractiveSignIn])
    | cons a rest =>
        cases hs : silent with
        | ok r => exact Or.inr ⟨r, rfl, by simp [signInWithMicrosoft, hacc]⟩
        | err m => exact Or.inl (by simp [signInWithMicrosoft, hacc, msInteractiveSignIn])
  · intro hcl h
    simp [signOutMicrosoft, hcl, h]
  · intro c hc
    simp [getMicrosoftAccount, hc]
  · intro c hc
    simp [getGoogleAccount, hc]
  · intro a rest hacc
    simp [refreshMicrosoftToken, hacc]
  · intro st c uf ho hres
    simp [googleStep, ho, resolveG, closeG, hres]

/-- C4 witness: a throwing provider-side clear is surfaced as
`{success:false}`, the Google local clear succeeds, and a failing code
exchange resolves the flow as a discriminated failure. -/
theorem broker_discriminated_amended_witness :
    (signOutMicrosoft removeBoom msal0 storeFresh).1 = SimpleResult.fail "boom" ∧
    (signOutGoogle storeFresh).1 = SimpleResult.ok ∧
    ((googleStep (googleInit storeFresh)
        (GEvent.request "/oauth2callback" (some "abc") (Except.error "boom")
          (Except.ok guser0))).1).result = some (GResult.fail "boom") :=
  have h := broker_discriminated_amended storeFresh msal0 removeBoom
    (MsAuthOutcome.err "nope") "boom" 0
  ⟨h.2.1 rfl rfl, h.2.2.2.2.1,
   h.2.2.2.2.2.2.2 (googleInit storeFresh) "abc" (Except.ok guser0) rfl rfl⟩

/- ===================== Bootstrap lemmas ===================== -/

theorem joinPath_ne_empty (a b : String) : joinPath a b ≠ "" := by
  intro h
  have h2 : (joinPath a b).length = 0 := by rw [h]; rfl
  simp only [joinPath, String.length_append] at h2
  have h3 : ("/" : String).length = 1 := rfl
  omega

theorem headD_mem_of_not_isEmpty {α : Type} (l : List α) (d : α)
    (h : l.isEmpty = false) : l.headD d ∈ l := by
  cases l with
  | nil => cases h
  | cons a t => simp

theorem wizardDataFolder_ne_empty (c : WizardChoices) (s : Store)
    (hb : "" ∉ c.browsePaths) : wizardDataFolder c s ≠ "" := by
  unfold wizardDataFolder
  by_cases h0 : c.folderResponse = 0
  · by_cases hbr : (c.browseCanceled || c.browsePaths.isEmpty) = true
    · simp only [h0, hbr, if_true]
      exact joinPath_ne_empty _ _
    · simp only [h0, hbr, if_true, Bool.false_eq_true, if_false]
      have hne : c.browsePaths.isEmpty = false := by
        cases hc : c.browseCanceled <;> cases hie : c.browsePaths.isEmpty <;>
          simp [hc, hie] at hbr ⊢
      intro hempty
      exact hb (hempty ▸ headD_mem_of_not_isEmpty c.browsePaths _ hne)
  · simp only [h0, if_false]
    exact joinPath_ne_empty _ _

theorem isFirstRun_write (st : Store) (k : FileKey) (v : FileContent) :
    isFirstRun (writeFile st k v) = isFirstRun st := rfl

theorem wizardStore_configState (c : WizardChoices) (s : Store) :
    (wizardStore c s).configState
      = ConfigState.parsed (some (wizardDataFolder c s)) (mergeBase s.configState) := by
  unfold wizardStore
  by_cases h : wizardDataFolder c s ∈ s.dirs <;> simp [h, saveDataFolderPath]

theorem wizardStore_mem (c : WizardChoices) (s : Store) :
    wizardDataFolder c s ∈ (wizardStore c s).dirs := by
  unfold wizardStore
  by_cases h : wizardDataFolder c s ∈ s.dirs <;> simp [h, saveDataFolderPath]

theorem wizardStore_isFirstRun (c : WizardChoices) (s : Store) :
    isFirstRun (wizardStore c s) = false := by
  simp [isFirstRun, wizardStore_configState c s]

theorem wizardStore_getDataFolderPath (c : WizardChoices) (s : Store)
    (hb : "" ∉ c.browsePaths) :
    getDataFolderPath (wizardStore c s) = wizardDataFolder c s := by
  simp [getDataFolderPath, wizardStore_configState c s,
    wizardDataFolder_ne_empty c s hb, wizardStore_mem c s]

theorem runSetupWizard_post (c : WizardChoices) (s : Store) (p : FileKey)
    (s' : Store) (a : List Action) (hb : "" ∉ c.browsePaths)
    (h : runSetupWizard c s = (some p, s', a)) :
    ∃ d, p = (d, ".env") ∧ isFirstRun s' = false ∧
      getDataFolderPath s' = d ∧
      (lookupFile s'.files (d, ".env")).isSome = true := by
  by_cases hq : c.welcomeQuit
  · simp [runSetupWizard, hq] at h
  · by_cases hf2 : c.folderResponse = 2
    · simp [runSetupWizard, hq, hf2] at h
    · simp only [runSetupWizard, hq, hf2, if_true, if_false, Bool.false_eq_true] at h
      by_cases he : (lookupFile (wizardStore c s).files
          (wizardDataFolder c s, ".env")).isSome = true
      · simp only [he, if_true, Prod.mk.injEq, Option.some.injEq] at h
        obtain ⟨hp, hs, ha⟩ := h
        subst hp
        subst hs
        exact ⟨wizardDataFolder c s, rfl, wizardStore_isFirstRun c s,
          wizardStore_getDataFolderPath c s hb, he⟩
      · simp only [he, if_false, Bool.false_eq_true, Prod.mk.injEq,
          Option.some.injEq] at h
        obtain ⟨hp, hs, ha⟩ := h
        subst hp
        subst hs
        refine ⟨wizardDataFolder c s, rfl, ?_, ?_, ?_⟩
        · rw [isFirstRun_write]
          exact wizardStore_isFirstRun c s
        · rw [getDataFolderPath_write]
          exact wizardStore_getDataFolderPath c s hb
        · rw [lookupFile_write_self]
          rfl

theorem ensureEnvFile_ready (c : WizardChoices) (st : Store)
    (hf : isFirstRun st = false)
    (he : (lookupFile st.files (getDataFolderPath st, ".env")).isSome = true) :
    ensureEnvFile c st = (some (getDataFolderPath st, ".env"), st, []) := by
  simp [ensureEnvFile, hf, he]

/- ===================== C6 ===================== -/

/-- C6: re-running bootstrap after a completed run changes nothing: the
wizard is not re-entered (no prompt), the settings file is not overwritten
with the template, and the legacy-`.env` migration copy is not repeated —
the second run returns the same settings-file path, the same state, and an
empty action list. -/
theorem ensureEnvFile_idempotent (c1 c2 : WizardChoices) (s : Store)
    (p : FileKey) (s1 : Store) (a1 : List Action)
    (hb : "" ∉ c1.browsePaths)
    (h1 : ensureEnvFile c1 s = (some p, s1, a1)) :
    ensureEnvFile c2 s1 = (some p, s1, []) := by
  cases hf : isFirstRun s with
  | true =>
      have hw : runSetupWizard c1 s = (some p, s1, a1) := by
        simpa [ensureEnvFile, hf] using h1
      obtain ⟨d, hp, hfr, hdf, hsome⟩ := runSetupWizard_post c1 s p s1 a1 hb hw
      subst hp
      have hr := ensureEnvFile_ready c2 s1 hfr (by rw [hdf]; exact hsome)
      rw [hdf] at hr
      exact hr
  | false =>
      simp only [ensureEnvFile, hf, Bool.false_eq_true, if_false] at h1
      cases he : (lookupFile s.files (getDataFolderPath s, ".env")).isSome with
      | true =>
          simp only [he, if_true, Prod.mk.injEq, Option.some.injEq] at h1
          obtain ⟨hp, hs, ha⟩ := h1
          subst hp
          subst hs
          exact ensureEnvFile_ready c2 s hf he
      | false =>
          simp only [he, Bool.false_eq_true, if_false] at h1
          cases hold : lookupFile s.files (getAppConfigPath s, ".env") with
          | some content =>
              simp only [hold, Prod.mk.injEq, Option.some.injEq] at h1
              obtain ⟨hp, hs, ha⟩ := h1
              subst hp
              subst hs
              have hfr : isFirstRun (writeFile s (getDataFolderPath s, ".env") content)
                  = false := by rw [isFirstRun_write]; exact hf
              have hdf : getDataFolderPath
                  (writeFile s (getDataFolderPath s, ".env") content)
                  = getDataFolderPath s := getDataFolderPath_write s _ _
              have hsome : (lookupFile
                  (writeFile s (getDataFolderPath s, ".env") content).files
                  (getDataFolderPath s, ".env")).isSome = true := by
                rw [lookupFile_write_self]
                rfl
              have hr := ensureEnvFile_ready c2 _ hfr (by rw [hdf]; exact hsome)
              rw [hdf] at hr
              exact hr
          | none =>
              simp only [hold] at h1
              obtain ⟨d, hp, hfr, hdf, hsome⟩ :=
                runSetupWizard_post c1 s p s1 a1 hb h1
              subst hp
              have hr := ensureEnvFile_ready c2 s1 hfr (by rw [hdf]; exact hsome)
              rw [hdf] at hr
              exact hr

/-- C6 witness: after a completed first-run bootstrap, a second bootstrap
returns the same settings path, leaves the state unchanged, and performs no
action (no prompt, no template write, no migration). -/
theorem ensureEnvFile_idempotent_witness :
    ensureEnvFile choicesDefault storeAfterFirstRun
      = (some ("/Users/u/Risk Management", ".env"), storeAfterFirstRun, []) :=
  ensureEnvFile_idempotent choicesDefault choicesDefault storeFresh
    ("/Users/u/Risk Management", ".env") storeAfterFirstRun
    [Action.wizardPrompt, Action.templateWrite] (by decide) (by rfl)

end RiskShell






